import Mathlib

/-!
Shallow embedding of the time_fastmcp_server core (src/main.py): timezone
resolution, local-timezone detection, current-time query and time
conversion, together with proofs of the specification claims.

Modelling conventions:
* Instants and local wall-clock datetimes are integers counting seconds
  since the epoch 1970-01-01 (local wall datetimes count local seconds).
  A Gregorian day index together with the second-of-day determines the
  year/month/day/hour/minute/second fields bijectively, so extracting
  year, month and day from a datetime is modelled as taking its day index.
* UTC offsets and DST adjustments are whole minutes, as the zoneinfo
  database reports for contemporary instants; Python requires a tzinfo
  offset to lie strictly between -24 and +24 hours (|offset| < 1440 min).
* The ambient clock (datetime.now) is an explicit parameter `now`, an
  instant in seconds.
* Fallible Python code is embedded with `Except Err`.
* Digits are ASCII decimal digits.
-/

namespace TimeSrv

/-- Result model of a single time query (the TimeResult pydantic model). -/
structure TimeResult where
  timezone : String
  datetime : String
  is_dst : Bool
deriving DecidableEq, Repr

/-- Result model of a conversion (the TimeConversionResult pydantic model). -/
structure TimeConversionResult where
  source : TimeResult
  target : TimeResult
  time_difference : String
deriving DecidableEq, Repr

/-- Typed failure outcomes of the core (each is a ValueError in the code,
distinguished here by its role, following the spec's error kinds). -/
inductive Err where
  | invalidTimezone (msg : String)
  | invalidTimeFormat (msg : String)
  | localTzUndetermined (msg : String)
deriving DecidableEq, Repr

instance {ε α : Type} [DecidableEq ε] [DecidableEq α] : DecidableEq (Except ε α) := fun x y =>
  match x, y with
  | .ok a, .ok b =>
      if h : a = b then .isTrue (by rw [h]) else .isFalse (fun he => h (Except.ok.inj he))
  | .error a, .error b =>
      if h : a = b then .isTrue (by rw [h]) else .isFalse (fun he => h (Except.error.inj he))
  | .ok _, .error _ => .isFalse (fun he => Except.noConfusion he)
  | .error _, .ok _ => .isFalse (fun he => Except.noConfusion he)

/-- A timezone handle as returned by the external timezone database
(zoneinfo.ZoneInfo).  `offsetAtLocal`/`dstAtLocal` give the zone's UTC
offset and DST adjustment (in minutes) for a wall-clock datetime attached
to the zone with fold = 0, as `datetime(..., tzinfo=z).utcoffset()` does;
`offsetAtInstant`/`dstAtInstant` give them at an absolute instant (seconds),
as `datetime.now(z)` and `astimezone(z)` do.  Python requires a tzinfo
offset to be strictly between -24h and +24h. -/
structure ZoneRules where
  offsetAtInstant : Int → Int
  offsetAtLocal : Int → Int
  dstAtInstant : Int → Int
  dstAtLocal : Int → Int
  offsetAtInstantLt : ∀ t, (offsetAtInstant t).natAbs < 1440
  offsetAtLocalLt : ∀ t, (offsetAtLocal t).natAbs < 1440

/-- The external timezone database: `find` is the key lookup performed by
the ZoneInfo constructor, `keyErrMsg` the message of the exception the
lookup raises on a missing key. -/
structure TZDatabase where
  find : String → Option ZoneRules
  keyErrMsg : String → String

/-- Day index (days since 1970-01-01) of a local datetime in seconds;
Python's floor division by 86400. -/
def dayOf (l : Int) : Int := l / 86400

/-- Second of the day of a local datetime in seconds. -/
def secOfDay (l : Int) : Nat := (l % 86400).toNat

/-- Hour field (0-23) of a local datetime in seconds. -/
def hourOf (l : Int) : Nat := secOfDay l / 3600

/-- Minute field (0-59) of a local datetime in seconds. -/
def minuteOf (l : Int) : Nat := secOfDay l % 3600 / 60

/-- Second field (0-59) of a local datetime in seconds. -/
def secondOf (l : Int) : Nat := secOfDay l % 60

/-- Gregorian date (year, month, day) of a day index, the civil-calendar
arithmetic datetime.date implements. -/
def civilFromDays (day : Int) : Int × Nat × Nat :=
  let z := day + 719468
  let era : Int := z / 146097
  let doe : Nat := (z - era * 146097).toNat
  let yoe : Nat := (doe - doe / 1460 + doe / 36524 - doe / 146096) / 365
  let doy : Nat := doe - (365 * yoe + yoe / 4 - yoe / 100)
  let mp : Nat := (5 * doy + 2) / 153
  let d : Nat := doy - (153 * mp + 2) / 5 + 1
  let m : Nat := if mp < 10 then mp + 3 else mp - 9
  let y : Int := (yoe : Int) + era * 400 + (if m ≤ 2 then 1 else 0)
  (y, m, d)

/-- Two-digit zero-padded decimal rendering (printf %02d); every call site
passes a value below 100. -/
def pad2 (n : Nat) : String := String.mk [Nat.digitChar (n / 10), Nat.digitChar (n % 10)]

/-- Zero-pad a decimal rendering to at least four digits (printf %04d). -/
def pad4 (n : Nat) : String :=
  String.mk (List.replicate (4 - (Nat.repr n).length) '0') ++ Nat.repr n

/-- Year rendering used by isoformat. -/
def yearStr (y : Int) : String :=
  if y < 0 then "-" ++ pad4 y.natAbs else pad4 y.toNat

/-- ISO date rendering YYYY-MM-DD of a day index. -/
def dateStr (day : Int) : String :=
  let c := civilFromDays day
  yearStr c.1 ++ "-" ++ pad2 c.2.1 ++ "-" ++ pad2 c.2.2

/-- UTC-offset suffix an aware datetime's isoformat appends, for a
whole-minute offset: sign, two-digit hours, colon, two-digit minutes. -/
def offsetSuffix (offMin : Int) : String :=
  (if offMin < 0 then "-" else "+") ++ pad2 (offMin.natAbs / 60) ++ ":" ++ pad2 (offMin.natAbs % 60)

/-- isoformat(timespec="seconds") of an aware datetime whose local wall
clock is `l` seconds and whose UTC offset is `offMin` minutes. -/
def isoformat (l : Int) (offMin : Int) : String :=
  dateStr (dayOf l) ++ "T" ++ pad2 (hourOf l) ++ ":" ++ pad2 (minuteOf l) ++ ":" ++ pad2 (secondOf l) ++ offsetSuffix offMin

/-- Numeric value of a two-ASCII-digit string, as int() computes it. -/
def val2 (a b : Char) : Nat := (a.toNat - 48) * 10 + (b.toNat - 48)

/-- Numeric value of one ASCII digit. -/
def val1 (a : Char) : Nat := a.toNat - 48

/-- datetime.strptime(time_str, "%H:%M").time(): the hour matches the
regular expression 2[0-3]|[0-1][0-9]|[0-9] (a two-digit value 0-23 or a
single digit), the minute matches [0-5][0-9]|[0-9] (a two-digit value
0-59 or a single digit), the separator is a literal colon, and the whole
string must be consumed (else "unconverted data remains"). -/
def parse_time (s : String) : Option (Nat × Nat) :=
  match s.toList with
  | [a, b, ':', c, d] =>
      if a.isDigit && b.isDigit && c.isDigit && d.isDigit
          && val2 a b ≤ 23 && val2 c d ≤ 59 then
        some (val2 a b, val2 c d)
      else none
  | [a, b, ':', c] =>
      if a.isDigit && b.isDigit && c.isDigit && val2 a b ≤ 23 then
        some (val2 a b, val1 c)
      else none
  | [a, ':', c, d] =>
      if a.isDigit && c.isDigit && d.isDigit && val2 c d ≤ 59 then
        some (val1 a, val2 c d)
      else none
  | [a, ':', c] =>
      if a.isDigit && c.isDigit then some (val1 a, val1 c) else none
  | _ => none

/-- Sign prefix the "+" format flag prints for a value. -/
def signStr (d : Int) : String := if d < 0 then "-" else "+"

/-- f"{x:+.1f}" for a whole number of hours x with |x| = |diffMin| / 60. -/
def fmtWhole (diffMin : Int) : String :=
  signStr diffMin ++ Nat.repr (diffMin.natAbs / 60) ++ ".0"

/-- Hundredths of an hour in |diffMin| minutes, rounded to nearest: the
value f"{x:+.2f}" prints for x = diffMin / 60.  5 * |diffMin| is never
congruent to a half away from a multiple of 3, so no tie-breaking rule is
needed, and the quantity is far enough from every hundredth boundary that
binary floating point rounds identically. -/
def cents (diffMin : Int) : Nat := (diffMin.natAbs * 5 + 1) / 3

/-- f"{x:+.2f}" for x = diffMin / 60. -/
def fmtTwo (diffMin : Int) : String :=
  signStr diffMin ++ Nat.repr (cents diffMin / 100) ++ "." ++ pad2 (cents diffMin % 100)

/-- str.rstrip with a single-character strip set. -/
def rstripChar (c : Char) (s : String) : String :=
  String.mk ((s.toList.reverse.dropWhile (fun x => x = c)).reverse)

/-- The time_difference rendering of convert_time, lines 117-120 of
src/main.py, on the offset difference in minutes: a whole number of hours
prints signed with one decimal place; otherwise the signed two-decimal
rendering has its trailing zeros, then a bare trailing decimal point,
stripped; "h" is appended. -/
def format_time_diff (diffMin : Int) : String :=
  if diffMin % 60 = 0 then fmtWhole diffMin ++ "h"
  else rstripChar '.' (rstripChar '0' (fmtTwo diffMin)) ++ "h"

/-- get_local_tz of src/main.py.  `local_tz_override` models the
--local-timezone argument (None or a string); `sys_tzinfo` models
datetime.now().astimezone(tz=None).tzinfo, None when the platform reports
no timezone, otherwise the str() of the reported tzinfo.  A non-empty
override is returned verbatim, with no database validation. -/
def get_local_tz (local_tz_override : Option String) (sys_tzinfo : Option String) : Except Err String :=
  if local_tz_override.getD "" ≠ "" then .ok (local_tz_override.getD "")
  else if sys_tzinfo.getD "None" = "中国标准时间" then .ok "Asia/Shanghai"
  else match sys_tzinfo with
    | some s => .ok s
    | none => .error (.localTzUndetermined "Could not determine local timezone - tzinfo is {tzinfo}")

/-- get_zoneinfo of src/main.py: ZoneInfo lookup, wrapping a lookup
failure in a ValueError that embeds the underlying exception's message. -/
def get_zoneinfo (db : TZDatabase) (timezone_name : String) : Except Err ZoneRules :=
  match db.find timezone_name with
  | some z => .ok z
  | none => .error (.invalidTimezone ("Invalid timezone: " ++ db.keyErrMsg timezone_name))

/-- The tail of get_current_time after the "local" alias has been
expanded: resolve the name and report now in that zone. -/
def current_time_in (db : TZDatabase) (now : Int) (timezone_name : String) : Except Err TimeResult :=
  match get_zoneinfo db timezone_name with
  | .error e => .error e
  | .ok timezone =>
      .ok { timezone := timezone_name
          , datetime := isoformat (now + 60 * timezone.offsetAtInstant now) (timezone.offsetAtInstant now)
          , is_dst := timezone.dstAtInstant now != 0 }

/-- get_current_time of src/main.py: the literal name "local" is replaced
by the detected local timezone before resolution. -/
def get_current_time (db : TZDatabase) (local_tz_override sys_tzinfo : Option String) (now : Int) (timezone_name : String) : Except Err TimeResult :=
  match (if timezone_name = "local" then get_local_tz local_tz_override sys_tzinfo else .ok timezone_name) with
  | .error e => .error e
  | .ok name => current_time_in db now name

/-- The source-zone datetime convert_time constructs: today's date read
from now in the source zone, combined with the parsed hour and minute,
seconds zero. -/
def source_local (sz : ZoneRules) (now : Int) (hh mm : Nat) : Int :=
  86400 * dayOf (now + 60 * sz.offsetAtInstant now) + 3600 * hh + 60 * mm

/-- The absolute instant of the constructed source datetime. -/
def source_instant (sz : ZoneRules) (now : Int) (hh mm : Nat) : Int :=
  source_local sz now hh mm - 60 * sz.offsetAtLocal (source_local sz now hh mm)

/-- The wall clock of that instant in the target zone (astimezone). -/
def target_local (sz tz : ZoneRules) (now : Int) (hh mm : Nat) : Int :=
  source_instant sz now hh mm + 60 * tz.offsetAtInstant (source_instant sz now hh mm)

/-- convert_time of src/main.py. -/
def convert_time (db : TZDatabase) (source_tz time_str target_tz : String) (now : Int) : Except Err TimeConversionResult :=
  match get_zoneinfo db source_tz with
  | .error e => .error e
  | .ok source_timezone =>
    match get_zoneinfo db target_tz with
    | .error e => .error e
    | .ok target_timezone =>
      match parse_time time_str with
      | none => .error (.invalidTimeFormat "Invalid time format. Expected HH:MM [24-hour format]")
      | some p =>
          let st := source_local source_timezone now p.1 p.2
          let inst := source_instant source_timezone now p.1 p.2
          let tt := target_local source_timezone target_timezone now p.1 p.2
          let source_offset := source_timezone.offsetAtLocal st
          let target_offset := target_timezone.offsetAtInstant inst
          .ok { source := { timezone := source_tz
                          , datetime := isoformat st source_offset
                          , is_dst := source_timezone.dstAtLocal st != 0 }
              , target := { timezone := target_tz
                          , datetime := isoformat tt target_offset
                          , is_dst := target_timezone.dstAtInstant inst != 0 }
              , time_difference := format_time_diff (target_offset - source_offset) }

/-- A fixed-offset, fixed-DST zone (e.g. UTC, Asia/Kolkata today). -/
def fixedZone (offMin dstMin : Int) (h : offMin.natAbs < 1440) : ZoneRules :=
  ⟨fun _ => offMin, fun _ => offMin, fun _ => dstMin, fun _ => dstMin, fun _ => h, fun _ => h⟩

/-- Asia/Kolkata: UTC+5:30, no DST. -/
def kolkataZone : ZoneRules := fixedZone 330 0 (by decide)

/-- UTC: offset zero, no DST. -/
def utcZone : ZoneRules := fixedZone 0 0 (by decide)

/-- A concrete two-zone database used to instantiate the theorems. -/
def exDB : TZDatabase where
  find := fun n => if n = "Asia/Kolkata" then some kolkataZone else if n = "UTC" then some utcZone else none
  keyErrMsg := fun n => "No time zone found with key " ++ n

/-! ### Helper lemmas -/

theorem isDigit_toNat (c : Char) (h : c.isDigit = true) : 48 ≤ c.toNat ∧ c.toNat ≤ 57 := by
  unfold Char.isDigit at h
  simp only [Bool.and_eq_true, decide_eq_true_eq] at h
  obtain ⟨h1, h2⟩ := h
  exact ⟨UInt32.le_def.mp h1 |>.trans_eq rfl, h2⟩

theorem dropWhile_append_singleton (p : Char → Bool) (a : Char) (h : p a = false) :
    ∀ l : List Char, (l ++ [a]).dropWhile p = l.dropWhile p ++ [a] := by
  intro l
  induction l with
  | nil => simp [List.dropWhile, h]
  | cons x xs ih =>
      simp only [List.cons_append, List.dropWhile_cons]
      split <;> simp [ih]

theorem toList_mk (l : List Char) : (String.mk l).toList = l := rfl

theorem rstripChar_mk_cons (c a : Char) (l : List Char) (h : ¬ a = c) :
    rstripChar c (String.mk (a :: l)) =
      String.mk (a :: (l.reverse.dropWhile (fun x => x = c)).reverse) := by
  unfold rstripChar
  rw [toList_mk, List.reverse_cons,
    dropWhile_append_singleton _ _ (by simp [h]), List.reverse_append]
  rfl

theorem parse_time_bounds (s : String) (hh mm : Nat) (h : parse_time s = some (hh, mm)) :
    hh ≤ 23 ∧ mm ≤ 59 := by
  unfold parse_time at h
  split at h
  · split at h
    · rename_i hcond
      simp only [Bool.and_eq_true, decide_eq_true_eq, and_assoc] at hcond
      obtain ⟨ha, hb, hc, hd, h23, h59⟩ := hcond
      injection h with hp
      injection hp with e1 e2
      omega
    · exact absurd h (by simp)
  · split at h
    · rename_i hcond
      simp only [Bool.and_eq_true, decide_eq_true_eq, and_assoc] at hcond
      obtain ⟨ha, hb, hc, h23⟩ := hcond
      injection h with hp
      injection hp with e1 e2
      have hcv := isDigit_toNat _ hc
      unfold val1 at e2
      omega
    · exact absurd h (by simp)
  · split at h
    · rename_i hcond
      simp only [Bool.and_eq_true, decide_eq_true_eq, and_assoc] at hcond
      obtain ⟨ha, hc, hd, h59⟩ := hcond
      injection h with hp
      injection hp with e1 e2
      have hav := isDigit_toNat _ ha
      unfold val1 at e1
      omega
    · exact absurd h (by simp)
  · split at h
    · rename_i hcond
      simp only [Bool.and_eq_true, decide_eq_true_eq, and_assoc] at hcond
      obtain ⟨ha, hc⟩ := hcond
      injection h with hp
      injection hp with e1 e2
      have hav := isDigit_toNat _ ha
      have hcv := isDigit_toNat _ hc
      unfold val1 at e1 e2
      omega
    · exact absurd h (by simp)
  · exact absurd h (by simp)

theorem convert_time_ok (db : TZDatabase) (stz ts ttz : String) (now : Int)
    (sz tz : ZoneRules) (hh mm : Nat) (r : TimeConversionResult)
    (hs : db.find stz = some sz) (ht : db.find ttz = some tz)
    (hp : parse_time ts = some (hh, mm))
    (hok : convert_time db stz ts ttz now = .ok r) :
    r = { source := { timezone := stz
                    , datetime := isoformat (source_local sz now hh mm)
                        (sz.offsetAtLocal (source_local sz now hh mm))
                    , is_dst := sz.dstAtLocal (source_local sz now hh mm) != 0 }
        , target := { timezone := ttz
                    , datetime := isoformat (target_local sz tz now hh mm)
                        (tz.offsetAtInstant (source_instant sz now hh mm))
                    , is_dst := tz.dstAtInstant (source_instant sz now hh mm) != 0 }
        , time_difference := format_time_diff
            (tz.offsetAtInstant (source_instant sz now hh mm) -
              sz.offsetAtLocal (source_local sz now hh mm)) } := by
  simp only [convert_time, get_zoneinfo, hs, ht, hp, Except.ok.injEq] at hok
  exact hok.symm

/-! ### Claims -/

/-- C1: the time_difference string of convert_time renders a whole-hour
difference signed with exactly one decimal place and "h" appended; any
other difference is rendered signed with two decimal places, trailing
zeros and then a bare trailing decimal point stripped, and "h" appended
(5.75 hours gives "+5.75h", 5.5 hours gives "+5.5h"); the sign is always
explicit, and a difference of exactly zero renders "+0.0h". -/
theorem time_difference_rendering :
    (∀ d : Int, ∃ body : String,
        format_time_diff d = (if d < 0 then "-" else "+") ++ body ++ "h") ∧
    (∀ d : Int, d % 60 = 0 →
        format_time_diff d = (if d < 0 then "-" else "+") ++ Nat.repr (d.natAbs / 60) ++ ".0h") ∧
    format_time_diff 0 = "+0.0h" ∧ format_time_diff 345 = "+5.75h" ∧
    format_time_diff 330 = "+5.5h" ∧ format_time_diff (-330) = "-5.5h" ∧
    format_time_diff 480 = "+8.0h" ∧ format_time_diff (-300) = "-5.0h" := by
  have hwhole : ∀ d : Int, d % 60 = 0 →
      format_time_diff d = (if d < 0 then "-" else "+") ++ Nat.repr (d.natAbs / 60) ++ ".0h" := by
    intro d h
    unfold format_time_diff fmtWhole signStr
    rw [if_pos h, String.append_assoc, String.append_assoc, String.append_assoc]
    rw [show (".0" ++ "h" : String) = ".0h" from by decide]
  refine ⟨?_, hwhole, by decide, by decide, by decide, by decide, by decide, by decide⟩
  intro d
  by_cases h : d % 60 = 0
  · exact ⟨Nat.repr (d.natAbs / 60) ++ ".0", by
      rw [hwhole d h]
      simp only [String.append_assoc]
      rw [show (".0" ++ "h" : String) = ".0h" from by decide]⟩
  · unfold format_time_diff
    rw [if_neg h]
    by_cases hneg : d < 0
    · have h0 : fmtTwo d =
          String.mk ('-' :: (Nat.repr (cents d / 100) ++ "." ++ pad2 (cents d % 100)).toList) := by
        unfold fmtTwo signStr
        rw [if_pos hneg]
        rfl
      rw [h0, rstripChar_mk_cons '0' '-' _ (by decide), rstripChar_mk_cons '.' '-' _ (by decide)]
      refine ⟨String.mk (((((Nat.repr (cents d / 100) ++ "." ++ pad2 (cents d % 100)).toList.reverse.dropWhile
        (fun x => x = '0')).reverse).reverse.dropWhile (fun x => x = '.')).reverse), ?_⟩
      rw [if_pos hneg]
      rfl
    · have h0 : fmtTwo d =
          String.mk ('+' :: (Nat.repr (cents d / 100) ++ "." ++ pad2 (cents d % 100)).toList) := by
        unfold fmtTwo signStr
        rw [if_neg hneg]
        rfl
      rw [h0, rstripChar_mk_cons '0' '+' _ (by decide), rstripChar_mk_cons '.' '+' _ (by decide)]
      refine ⟨String.mk (((((Nat.repr (cents d / 100) ++ "." ++ pad2 (cents d % 100)).toList.reverse.dropWhile
        (fun x => x = '0')).reverse).reverse.dropWhile (fun x => x = '.')).reverse), ?_⟩
      rw [if_neg hneg]
      rfl

/-- C1 witness: instantiation of the general conjuncts at concrete
differences of 480 minutes (whole) and an arbitrary difference. -/
theorem time_difference_rendering_witness :
    (480 : Int) % 60 = 0 ∧
    format_time_diff 480 = (if (480 : Int) < 0 then "-" else "+") ++ Nat.repr ((480 : Int).natAbs / 60) ++ ".0h" :=
  ⟨by decide, time_difference_rendering.2.1 480 (by decide)⟩

/-- C2: with both timezones valid, any time string the strict HH:MM
parser rejects makes convert_time fail with InvalidTimeFormatError whose
message is exactly "Invalid time format. Expected HH:MM [24-hour format]";
the parser's raw error never surfaces. -/
theorem invalid_time_format_rejection :
    ∀ (db : TZDatabase) (stz ttz ts : String) (now : Int) (sz tz : ZoneRules),
      db.find stz = some sz → db.find ttz = some tz → parse_time ts = none →
      convert_time db stz ts ttz now =
        .error (.invalidTimeFormat "Invalid time format. Expected HH:MM [24-hour format]") := by
  intro db stz ttz ts now sz tz hs ht hp
  simp [convert_time, get_zoneinfo, hs, ht, hp]

/-- C2 witness: "25:61" is rejected with the fixed message. -/
theorem invalid_time_format_rejection_witness :
    convert_time exDB "UTC" "25:61" "UTC" 0 =
      .error (.invalidTimeFormat "Invalid time format. Expected HH:MM [24-hour format]") :=
  invalid_time_format_rejection exDB "UTC" "UTC" "25:61" 0 utcZone utcZone rfl rfl (by decide)

/-- C3: every successful convert_time call renders, as its
time_difference, the target zone's UTC offset at the constructed instant
minus the source zone's UTC offset at the constructed wall-clock
datetime, so the offsets are the DST-correct ones for that date and
time. -/
theorem hours_difference_offsets (db : TZDatabase) (stz ts ttz : String) (now : Int)
    (sz tz : ZoneRules) (hh mm : Nat) (r : TimeConversionResult)
    (hs : db.find stz = some sz) (ht : db.find ttz = some tz)
    (hp : parse_time ts = some (hh, mm))
    (hok : convert_time db stz ts ttz now = .ok r) :
    r.time_difference = format_time_diff
      (tz.offsetAtInstant (source_instant sz now hh mm) -
        sz.offsetAtLocal (source_local sz now hh mm)) := by
  rw [convert_time_ok db stz ts ttz now sz tz hh mm r hs ht hp hok]

/-- C3 witness: converting 10:00 from Asia/Kolkata (UTC+5:30, fixed) to
UTC yields time_difference "-5.5h". -/
theorem hours_difference_offsets_witness :
    ({ source := { timezone := "Asia/Kolkata"
                 , datetime := "1970-01-01T10:00:00+05:30", is_dst := false }
     , target := { timezone := "UTC"
                 , datetime := "1970-01-01T04:30:00+00:00", is_dst := false }
     , time_difference := "-5.5h" } : TimeConversionResult).time_difference =
      format_time_diff (utcZone.offsetAtInstant (source_instant kolkataZone 0 10 0) -
        kolkataZone.offsetAtLocal (source_local kolkataZone 0 10 0)) ∧
    format_time_diff (utcZone.offsetAtInstant (source_instant kolkataZone 0 10 0) -
      kolkataZone.offsetAtLocal (source_local kolkataZone 0 10 0)) = "-5.5h" :=
  ⟨hours_difference_offsets exDB "Asia/Kolkata" "10:00" "UTC" 0 kolkataZone utcZone 10 0 _
    rfl rfl (by decide) (by decide), by decide⟩

/-- C4: every successful convert_time call builds its source datetime
from the date of "now" read in the source zone combined with the parsed
hour and minute, with seconds zero, attached to the source zone; the
target datetime denotes the same absolute instant re-expressed in the
target zone. -/
theorem source_datetime_construction (db : TZDatabase) (stz ts ttz : String) (now : Int)
    (sz tz : ZoneRules) (hh mm : Nat) (r : TimeConversionResult)
    (hs : db.find stz = some sz) (ht : db.find ttz = some tz)
    (hp : parse_time ts = some (hh, mm))
    (hok : convert_time db stz ts ttz now = .ok r) :
    dayOf (source_local sz now hh mm) = dayOf (now + 60 * sz.offsetAtInstant now) ∧
    hourOf (source_local sz now hh mm) = hh ∧
    minuteOf (source_local sz now hh mm) = mm ∧
    secondOf (source_local sz now hh mm) = 0 ∧
    r.source.datetime = isoformat (source_local sz now hh mm)
      (sz.offsetAtLocal (source_local sz now hh mm)) ∧
    r.target.datetime = isoformat (target_local sz tz now hh mm)
      (tz.offsetAtInstant (source_instant sz now hh mm)) ∧
    target_local sz tz now hh mm - 60 * tz.offsetAtInstant (source_instant sz now hh mm) =
      source_local sz now hh mm - 60 * sz.offsetAtLocal (source_local sz now hh mm) := by
  obtain ⟨h23, h59⟩ := parse_time_bounds ts hh mm hp
  rw [convert_time_ok db stz ts ttz now sz tz hh mm r hs ht hp hok]
  refine ⟨?_, ?_, ?_, ?_, rfl, rfl, ?_⟩
  · unfold source_local dayOf
    omega
  · unfold source_local hourOf secOfDay dayOf
    omega
  · unfold source_local minuteOf secOfDay dayOf
    omega
  · unfold source_local secondOf secOfDay dayOf
    omega
  · unfold target_local source_instant
    omega

/-- C4 witness: the construction and same-instant facts at the concrete
Kolkata-to-UTC conversion of 10:00 with now = 0. -/
theorem source_datetime_construction_witness :
    dayOf (source_local kolkataZone 0 10 0) = dayOf (0 + 60 * kolkataZone.offsetAtInstant 0) ∧
    hourOf (source_local kolkataZone 0 10 0) = 10 ∧
    minuteOf (source_local kolkataZone 0 10 0) = 0 ∧
    secondOf (source_local kolkataZone 0 10 0) = 0 ∧
    ({ source := { timezone := "Asia/Kolkata"
                 , datetime := "1970-01-01T10:00:00+05:30", is_dst := false }
     , target := { timezone := "UTC"
                 , datetime := "1970-01-01T04:30:00+00:00", is_dst := false }
     , time_difference := "-5.5h" } : TimeConversionResult).source.datetime =
      isoformat (source_local kolkataZone 0 10 0)
        (kolkataZone.offsetAtLocal (source_local kolkataZone 0 10 0)) ∧
    ({ source := { timezone := "Asia/Kolkata"
                 , datetime := "1970-01-01T10:00:00+05:30", is_dst := false }
     , target := { timezone := "UTC"
                 , datetime := "1970-01-01T04:30:00+00:00", is_dst := false }
     , time_difference := "-5.5h" } : TimeConversionResult).target.datetime =
      isoformat (target_local kolkataZone utcZone 0 10 0)
        (utcZone.offsetAtInstant (source_instant kolkataZone 0 10 0)) ∧
    target_local kolkataZone utcZone 0 10 0 -
        60 * utcZone.offsetAtInstant (source_instant kolkataZone 0 10 0) =
      source_local kolkataZone 0 10 0 -
        60 * kolkataZone.offsetAtLocal (source_local kolkataZone 0 10 0) :=
  source_datetime_construction exDB "Asia/Kolkata" "10:00" "UTC" 0 kolkataZone utcZone 10 0 _
    rfl rfl (by decide) (by decide)

theorem local_reconstruct (l : Int) (h : l % 60 = 0) :
    86400 * dayOf l + 3600 * (hourOf l : Int) + 60 * (minuteOf l : Int) = l := by
  unfold dayOf hourOf minuteOf secOfDay
  omega

/-- C5: converting a wall-clock time from zone A to zone B, then feeding
the resulting target wall clock back from B to A on the same reference
date, returns the original wall-clock datetime constructed in A, provided
no DST transition separates the offset lookups (zone B assigns the first
conversion's target wall time the same offset it used to produce it, and
zone A's offset at the instant of the second conversion equals the one it
used in the first). -/
theorem round_trip (db : TZDatabase) (nameA nameB ts1 ts2 : String)
    (A B : ZoneRules) (now1 now2 : Int) (hh mm : Nat) (r1 r2 : TimeConversionResult)
    (hs : db.find nameA = some A) (ht : db.find nameB = some B)
    (hp1 : parse_time ts1 = some (hh, mm))
    (hok1 : convert_time db nameA ts1 nameB now1 = .ok r1)
    (hp2 : parse_time ts2 = some (hourOf (target_local A B now1 hh mm),
      minuteOf (target_local A B now1 hh mm)))
    (hday : dayOf (now2 + 60 * B.offsetAtInstant now2) = dayOf (target_local A B now1 hh mm))
    (hB : B.offsetAtLocal (target_local A B now1 hh mm) =
      B.offsetAtInstant (source_instant A now1 hh mm))
    (hA : A.offsetAtInstant (target_local A B now1 hh mm -
        60 * B.offsetAtLocal (target_local A B now1 hh mm)) =
      A.offsetAtLocal (source_local A now1 hh mm))
    (hok2 : convert_time db nameB ts2 nameA now2 = .ok r2) :
    r2.target.datetime = r1.source.datetime ∧
    target_local B A now2 (hourOf (target_local A B now1 hh mm))
      (minuteOf (target_local A B now1 hh mm)) = source_local A now1 hh mm := by
  have h60 : target_local A B now1 hh mm % 60 = 0 := by
    unfold target_local source_instant source_local
    omega
  have e1 : source_local B now2 (hourOf (target_local A B now1 hh mm))
      (minuteOf (target_local A B now1 hh mm)) = target_local A B now1 hh mm := by
    have hrec := local_reconstruct (target_local A B now1 hh mm) h60
    unfold source_local
    rw [hday]
    exact hrec
  have e2 : source_instant B now2 (hourOf (target_local A B now1 hh mm))
      (minuteOf (target_local A B now1 hh mm)) =
      target_local A B now1 hh mm - 60 * B.offsetAtLocal (target_local A B now1 hh mm) := by
    unfold source_instant
    rw [e1]
  have e3 : target_local B A now2 (hourOf (target_local A B now1 hh mm))
      (minuteOf (target_local A B now1 hh mm)) = source_local A now1 hh mm := by
    have expand : target_local B A now2 (hourOf (target_local A B now1 hh mm))
        (minuteOf (target_local A B now1 hh mm)) =
        source_instant B now2 (hourOf (target_local A B now1 hh mm))
            (minuteOf (target_local A B now1 hh mm)) +
          60 * A.offsetAtInstant (source_instant B now2
            (hourOf (target_local A B now1 hh mm)) (minuteOf (target_local A B now1 hh mm))) := rfl
    rw [expand, e2, hA, hB]
    unfold target_local source_instant source_local
    omega
  have hr1 := convert_time_ok db nameA ts1 nameB now1 A B hh mm r1 hs ht hp1 hok1
  have hr2 := convert_time_ok db nameB ts2 nameA now2 B A
    (hourOf (target_local A B now1 hh mm)) (minuteOf (target_local A B now1 hh mm)) r2
    ht hs hp2 hok2
  refine ⟨?_, e3⟩
  rw [hr1, hr2]
  show isoformat (target_local B A now2 _ _)
      (A.offsetAtInstant (source_instant B now2 _ _)) = isoformat _ _
  rw [e3, e2, hA]

/-- C5 witness: 10:00 Asia/Kolkata converts to 04:30 UTC, and 04:30 UTC
converts back to the original 10:00 Asia/Kolkata wall clock. -/
theorem round_trip_witness :
    ({ source := { timezone := "UTC"
                 , datetime := "1970-01-01T04:30:00+00:00", is_dst := false }
     , target := { timezone := "Asia/Kolkata"
                 , datetime := "1970-01-01T10:00:00+05:30", is_dst := false }
     , time_difference := "+5.5h" } : TimeConversionResult).target.datetime =
      ({ source := { timezone := "Asia/Kolkata"
                   , datetime := "1970-01-01T10:00:00+05:30", is_dst := false }
       , target := { timezone := "UTC"
                   , datetime := "1970-01-01T04:30:00+00:00", is_dst := false }
       , time_difference := "-5.5h" } : TimeConversionResult).source.datetime ∧
    target_local utcZone kolkataZone 0 (hourOf (target_local kolkataZone utcZone 0 10 0))
        (minuteOf (target_local kolkataZone utcZone 0 10 0)) =
      source_local kolkataZone 0 10 0 :=
  round_trip exDB "Asia/Kolkata" "UTC" "10:00" "04:30" kolkataZone utcZone 0 0 10 0 _ _
    rfl rfl (by decide) (by decide) (by decide) (by decide) (by decide) (by decide) (by decide)

/-- C6: convert_time performs no "local" alias expansion: each of
source_tz and target_tz is resolved as a literal identifier, so "local"
fails with InvalidTimezoneError whenever the database does not define a
zone of that name; only get_current_time expands the alias (through
get_local_tz), and it does so only for the exact name "local". -/
theorem local_alias_only_in_get_current_time :
    (∀ (db : TZDatabase) (ts ttz : String) (now : Int), db.find "local" = none →
        convert_time db "local" ts ttz now =
          .error (.invalidTimezone ("Invalid timezone: " ++ db.keyErrMsg "local"))) ∧
    (∀ (db : TZDatabase) (stz ts : String) (now : Int) (sz : ZoneRules),
        db.find stz = some sz → db.find "local" = none →
        convert_time db stz ts "local" now =
          .error (.invalidTimezone ("Invalid timezone: " ++ db.keyErrMsg "local"))) ∧
    (∀ (db : TZDatabase) (ov env : Option String) (now : Int),
        get_current_time db ov env now "local" =
          match get_local_tz ov env with
          | .error e => .error e
          | .ok name => current_time_in db now name) ∧
    (∀ (db : TZDatabase) (ov env : Option String) (now : Int) (name : String),
        name ≠ "local" → get_current_time db ov env now name = current_time_in db now name) := by
  refine ⟨?_, ?_, ?_, ?_⟩
  · intro db ts ttz now h
    simp [convert_time, get_zoneinfo, h]
  · intro db stz ts now sz h1 h2
    simp [convert_time, get_zoneinfo, h1, h2]
  · intro db ov env now
    rfl
  · intro db ov env now name hname
    unfold get_current_time
    rw [if_neg hname]

/-- C6 witness: with a database that defines no zone named "local",
convert_time rejects the literal name "local". -/
theorem local_alias_only_in_get_current_time_witness :
    convert_time exDB "local" "10:00" "UTC" 0 =
      .error (.invalidTimezone ("Invalid timezone: " ++ exDB.keyErrMsg "local")) :=
  local_alias_only_in_get_current_time.1 exDB "10:00" "UTC" 0 rfl

/-- C7: local timezone detection returns a non-empty override verbatim
(no database validation); otherwise it queries the environment's label,
translating the legacy CJK label for China Standard Time to
"Asia/Shanghai", returning any other obtained value's string form, and
failing with LocalTimezoneUndeterminedError when nothing is obtained. -/
theorem local_tz_detection (ov env : Option String) :
    (∀ s : String, ov = some s → s ≠ "" → get_local_tz ov env = .ok s) ∧
    ((ov = none ∨ ov = some "") → env = some "中国标准时间" →
        get_local_tz ov env = .ok "Asia/Shanghai") ∧
    (∀ s : String, (ov = none ∨ ov = some "") → env = some s → s ≠ "中国标准时间" →
        get_local_tz ov env = .ok s) ∧
    ((ov = none ∨ ov = some "") → env = none →
        get_local_tz ov env =
          .error (.localTzUndetermined "Could not determine local timezone - tzinfo is {tzinfo}")) := by
  refine ⟨?_, ?_, ?_, ?_⟩
  · rintro s rfl hne
    simp [get_local_tz, hne]
  · rintro (rfl | rfl) rfl <;> rfl
  · rintro s (rfl | rfl) rfl hne <;> simp [get_local_tz, hne]
  · rintro (rfl | rfl) rfl <;> rfl

/-- C7 witness: an override of "Europe/Paris" is returned verbatim. -/
theorem local_tz_detection_witness :
    get_local_tz (some "Europe/Paris") none = .ok "Europe/Paris" :=
  (local_tz_detection (some "Europe/Paris") none).1 "Europe/Paris" rfl (by decide)

/-- C8: a failed timezone-database lookup is wrapped in an
InvalidTimezoneError whose message embeds the underlying lookup failure's
message, and never escapes raw; in particular get_current_time of
"bogus/zone" fails this way. -/
theorem invalid_timezone_wrapping :
    (∀ (db : TZDatabase) (name : String), db.find name = none →
        get_zoneinfo db name =
          .error (.invalidTimezone ("Invalid timezone: " ++ db.keyErrMsg name))) ∧
    (∀ (db : TZDatabase) (ov env : Option String) (now : Int), db.find "bogus/zone" = none →
        get_current_time db ov env now "bogus/zone" =
          .error (.invalidTimezone ("Invalid timezone: " ++ db.keyErrMsg "bogus/zone"))) := by
  constructor
  · intro db name h
    simp [get_zoneinfo, h]
  · intro db ov env now h
    simp [get_current_time, current_time_in, get_zoneinfo, h]

/-- C8 witness: the concrete database rejects "bogus/zone" with the
wrapped message. -/
theorem invalid_timezone_wrapping_witness :
    get_current_time exDB none none 0 "bogus/zone" =
      .error (.invalidTimezone ("Invalid timezone: " ++ exDB.keyErrMsg "bogus/zone")) :=
  invalid_timezone_wrapping.2 exDB none none 0 rfl

/-- Executable check that a string is exactly two ASCII decimal digits. -/
def isTwoDigitStr (s : String) : Bool :=
  match s.toList with
  | [a, b] => a.isDigit && b.isDigit
  | _ => false

/-- An ISO-8601 date-time string truncated to second precision carrying a
UTC offset: a date part, "T", two-digit hour, minute and second fields,
then a signed two-digit-hour, two-digit-minute offset suffix. -/
def isoShape (s : String) : Prop :=
  ∃ date hh mm ss sgn oh om : String,
    s = date ++ "T" ++ hh ++ ":" ++ mm ++ ":" ++ ss ++ sgn ++ oh ++ ":" ++ om ∧
    isTwoDigitStr hh = true ∧ isTwoDigitStr mm = true ∧ isTwoDigitStr ss = true ∧
    (sgn = "+" ∨ sgn = "-") ∧ isTwoDigitStr oh = true ∧ isTwoDigitStr om = true

theorem digitChar_isDigit (d : Nat) (h : d ≤ 9) : (Nat.digitChar d).isDigit = true := by
  interval_cases d <;> decide

theorem pad2_twoDigit (n : Nat) (h : n ≤ 99) : isTwoDigitStr (pad2 n) = true := by
  have h1 : n / 10 ≤ 9 := by omega
  have h2 : n % 10 ≤ 9 := by omega
  show ((Nat.digitChar (n / 10)).isDigit && (Nat.digitChar (n % 10)).isDigit) = true
  rw [digitChar_isDigit _ h1, digitChar_isDigit _ h2]
  rfl

theorem isoformat_shape (l off : Int) (hoff : off.natAbs < 1440) :
    isoShape (isoformat l off) := by
  refine ⟨dateStr (dayOf l), pad2 (hourOf l), pad2 (minuteOf l), pad2 (secondOf l),
    (if off < 0 then "-" else "+"), pad2 (off.natAbs / 60), pad2 (off.natAbs % 60),
    ?_, ?_, ?_, ?_, ?_, ?_, ?_⟩
  · unfold isoformat offsetSuffix
    simp only [String.append_assoc]
  · exact pad2_twoDigit _ (by unfold hourOf secOfDay; omega)
  · exact pad2_twoDigit _ (by unfold minuteOf secOfDay; omega)
  · exact pad2_twoDigit _ (by unfold secondOf secOfDay; omega)
  · by_cases hneg : off < 0
    · rw [if_pos hneg]
      right
      rfl
    · rw [if_neg hneg]
      left
      rfl
  · exact pad2_twoDigit _ (by omega)
  · exact pad2_twoDigit _ (by omega)

/-- C9: every datetime string a successful get_current_time or
convert_time returns is an ISO-8601 date-time truncated to second
precision and carrying a UTC-offset suffix, never a naive local-only
string. -/
theorem datetime_always_offset_aware :
    (∀ (db : TZDatabase) (ov env : Option String) (now : Int) (name : String) (r : TimeResult),
        get_current_time db ov env now name = .ok r → isoShape r.datetime) ∧
    (∀ (db : TZDatabase) (stz ts ttz : String) (now : Int) (r : TimeConversionResult),
        convert_time db stz ts ttz now = .ok r →
        isoShape r.source.datetime ∧ isoShape r.target.datetime) := by
  constructor
  · intro db ov env now name r hok
    unfold get_current_time at hok
    split at hok
    · exact absurd hok (by simp)
    · rename_i name2 heq
      unfold current_time_in at hok
      split at hok
      · exact absurd hok (by simp)
      · rename_i timezone heq2
        injection hok with hok2
        rw [← hok2]
        exact isoformat_shape _ _ (timezone.offsetAtInstantLt now)
  · intro db stz ts ttz now r hok
    unfold convert_time get_zoneinfo at hok
    split at hok
    · exact absurd hok (by simp)
    · rename_i sz heqs
      split at hok
      · exact absurd hok (by simp)
      · rename_i tz heqt
        split at hok
        · exact absurd hok (by simp)
        · rename_i p heqp
          injection hok with hok2
          rw [← hok2]
          constructor
          · exact isoformat_shape _ _ (sz.offsetAtLocalLt _)
          · exact isoformat_shape _ _ (tz.offsetAtInstantLt _)

/-- C9 witness: the current-time result for UTC at the epoch instant has
the offset-aware ISO shape. -/
theorem datetime_always_offset_aware_witness :
    isoShape "1970-01-01T00:00:00+00:00" :=
  datetime_always_offset_aware.1 exDB none none 0 "UTC"
    { timezone := "UTC", datetime := "1970-01-01T00:00:00+00:00", is_dst := false } (by decide)

/-- C10: convert_time resolves both timezone identifiers before parsing
time_str: an invalid source or target timezone yields
InvalidTimezoneError regardless of time_str, and an InvalidTimeFormatError
therefore implies both supplied timezones were valid. -/
theorem resolution_precedes_parse :
    (∀ (db : TZDatabase) (stz ts ttz : String) (now : Int), db.find stz = none →
        convert_time db stz ts ttz now =
          .error (.invalidTimezone ("Invalid timezone: " ++ db.keyErrMsg stz))) ∧
    (∀ (db : TZDatabase) (stz ts ttz : String) (now : Int) (sz : ZoneRules),
        db.find stz = some sz → db.find ttz = none →
        convert_time db stz ts ttz now =
          .error (.invalidTimezone ("Invalid timezone: " ++ db.keyErrMsg ttz))) ∧
    (∀ (db : TZDatabase) (stz ts ttz : String) (now : Int) (m : String),
        convert_time db stz ts ttz now = .error (.invalidTimeFormat m) →
        (∃ sz, db.find stz = some sz) ∧ ∃ tz, db.find ttz = some tz) := by
  refine ⟨?_, ?_, ?_⟩
  · intro db stz ts ttz now h
    simp [convert_time, get_zoneinfo, h]
  · intro db stz ts ttz now sz h1 h2
    simp [convert_time, get_zoneinfo, h1, h2]
  · intro db stz ts ttz now m h
    cases hfs : db.find stz with
    | none => simp [convert_time, get_zoneinfo, hfs] at h
    | some sz =>
        cases hft : db.find ttz with
        | none => simp [convert_time, get_zoneinfo, hfs, hft] at h
        | some tz => exact ⟨⟨sz, rfl⟩, ⟨tz, rfl⟩⟩

/-- C10 witness: an unknown source timezone wins over a malformed
time_str: "25:61" notwithstanding, the error is InvalidTimezoneError. -/
theorem resolution_precedes_parse_witness :
    convert_time exDB "nope" "25:61" "UTC" 0 =
      .error (.invalidTimezone ("Invalid timezone: " ++ exDB.keyErrMsg "nope")) :=
  resolution_precedes_parse.1 exDB "nope" "25:61" "UTC" 0 rfl

end TimeSrv
